import Mathlib

/-!
Verification development for the DanNet MCP server
(`src/examples/dannet-mcp-server/dannet_mcp_server.py`).

The Python source is shallowly embedded: JSON-LD response bodies become the
inductive `JValue`; Python dictionaries become association lists with
first-match lookup; Python string primitives (slicing, `startswith`,
`lower`, `strip`, `split`) are modelled over the underlying character
lists; the HTTP layer is modelled by a response oracle `Nat → HResp`
giving the outcome of each attempt; Python exceptions become
`Except String`.  `str.lower` is modelled as ASCII lowering (it is used
only as a comparison key, identically on both sides of every statement).
Exception message texts are abstracted to the exception class name.
-/

/-- Decoded JSON values, as produced by `response.json()` in the source. -/
inductive JValue where
  | str (s : String)
  | int (n : Int)
  | bool (b : Bool)
  | null
  | arr (elems : List JValue)
  | obj (fields : List (String × JValue))

/-- First-match lookup in an association list (Python `dict` access;
Python dicts have unique keys, for which this is exact). -/
def lookupStr {β : Type} (k : String) : List (String × β) → Option β
  | [] => none
  | (k', v) :: rest => if k' = k then some v else lookupStr k rest

/-- Python `k in d`. -/
def hasKey {β : Type} (kvs : List (String × β)) (k : String) : Bool :=
  (lookupStr k kvs).isSome

/-- Python `d.get(k, default)`. -/
def dictGet {β : Type} (kvs : List (String × β)) (k : String) (default : β) : β :=
  (lookupStr k kvs).getD default

/-- Python `d[k] = v`: replace an existing binding in place, else append. -/
def pyDictSet {β : Type} (kvs : List (String × β)) (k : String) (v : β) : List (String × β) :=
  if hasKey kvs k then kvs.map (fun p => if p.1 = k then (p.1, v) else p)
  else kvs ++ [(k, v)]

/-- Code-point prefix test on character lists. -/
def charsLeadWith : List Char → List Char → Bool
  | [], _ => true
  | _ :: _, [] => false
  | a :: as, b :: bs => a == b && charsLeadWith as bs

/-- Python `s.startswith(pre)`: code-point prefix test. -/
def pyStartsWith (s pre : String) : Bool :=
  charsLeadWith pre.data s.data

/-- Python `s[n:]`: drop the first `n` code points. -/
def pyDrop (s : String) (n : Nat) : String :=
  ⟨s.data.drop n⟩

/-- Python `c in s` for a single character. -/
def pyContainsChar (s : String) (c : Char) : Bool :=
  s.data.contains c

/-- Python `s.split(c)[-1]`: the suffix after the last occurrence of `c`. -/
def pySplitLast (s : String) (c : Char) : String :=
  ⟨(s.data.reverse.takeWhile (fun x => !(x == c))).reverse⟩

/-- Python `s.lower()` (ASCII model, see the header note). -/
def pyLower (s : String) : String :=
  ⟨s.data.map Char.toLower⟩

/-- Python `s.strip(c)` for a single strip character. -/
def pyStripChar (s : String) (c : Char) : String :=
  ⟨((s.data.dropWhile (fun x => x == c)).reverse.dropWhile (fun x => x == c)).reverse⟩

/-- Python `s.rstrip(c)` for a single strip character. -/
def pyRstrip (s : String) (c : Char) : String :=
  ⟨(s.data.reverse.dropWhile (fun x => x == c)).reverse⟩

/-- Python truthiness of a decoded JSON value. -/
def pyTruthy : JValue → Bool
  | .str s => !s.data.isEmpty
  | .int n => !(n == 0)
  | .bool b => b
  | .null => false
  | .arr l => !l.isEmpty
  | .obj kvs => !kvs.isEmpty

/-- Python `a or b` on decoded JSON values. -/
def pyOr (a b : JValue) : JValue :=
  if pyTruthy a then a else b

mutual

/-- Python `repr` of a decoded JSON value (as used by `str` on containers). -/
def pyRepr : JValue → String
  | .str s => "\x27" ++ s ++ "\x27"
  | .int n => toString n
  | .bool b => if b then "True" else "False"
  | .null => "None"
  | .arr l => "[" ++ pyReprList l ++ "]"
  | .obj kvs => "\x7b" ++ pyReprObj kvs ++ "\x7d"

/-- Comma-joined `repr`s of list elements. -/
def pyReprList : List JValue → String
  | [] => ""
  | [v] => pyRepr v
  | v :: rest => pyRepr v ++ ", " ++ pyReprList rest

/-- Comma-joined `repr`s of dict entries. -/
def pyReprObj : List (String × JValue) → String
  | [] => ""
  | [(k, v)] => "\x27" ++ k ++ "\x27: " ++ pyRepr v
  | (k, v) :: rest => "\x27" ++ k ++ "\x27: " ++ pyRepr v ++ ", " ++ pyReprObj rest

end

/-- Python `str` of a decoded JSON value. -/
def pyStr : JValue → String
  | .str s => s
  | v => pyRepr v

/-- Source `parse_resource_id` (lines 256–268): strip `:dn/`, else take the
substring after the last `:`, else after the last `/`, else pass through. -/
def parse_resource_id (s : String) : String :=
  if pyStartsWith s ":dn/" then pyDrop s 4
  else if pyContainsChar s ':' then pySplitLast s ':'
  else if pyContainsChar s '/' then pySplitLast s '/'
  else s

/-- Source `extract_ontological_types` (lines 327–342). -/
def extract_ontological_types (kvs : List (String × JValue)) : JValue :=
  match dictGet kvs "dns:ontologicalType" (.obj []) with
  | .obj okvs =>
    match lookupStr "@set" okvs with
    | some v => v
    | none => .arr []
  | .arr l => .arr l
  | _ => .arr []

/-- Source `extract_sentiment_data` (lines 345–361): a mapping value yields
a polarity/value record, anything else yields `None`. -/
def extract_sentiment_data (kvs : List (String × JValue)) : JValue :=
  match lookupStr "dns:sentiment" kvs with
  | some (.obj skvs) =>
    .obj [("polarity", dictGet skvs "marl:hasPolarity" (.str "")),
          ("value", dictGet skvs "marl:polarityValue" (.str ""))]
  | _ => .null

/-- Source `get_language_value` (lines 364–388).  The source's
`elif isinstance(data, list)` branch is nested under
`elif isinstance(data, dict)` and therefore unreachable; a list input
falls through to the final `return str(data) if data else ''`. -/
def get_language_value (data : JValue) (_preferredLang : String) : JValue :=
  match data with
  | .str s => .str s
  | .obj kvs =>
    match lookupStr "@value" kvs with
    | some v => v
    | none => if pyTruthy (.obj kvs) then .str (pyStr (.obj kvs)) else .str ""
  | v => if pyTruthy v then .str (pyStr v) else .str ""

/-! ## Transport (`DanNetClient._make_request`, lines 68–101)

The outcome of the `attempt`-th `client.get` call is given by a response
oracle.  `HResp.ok` is a 2xx response with a decodable JSON body,
`HResp.status` a non-2xx response raised by `raise_for_status`, and
`HResp.exn` any other request-level exception (connection error, timeout,
body that fails to decode). -/

/-- Outcome of one simulated HTTP attempt. -/
inductive HResp where
  | ok (payload : JValue)
  | status (code : Nat) (body : String)
  | exn (msg : String)

/-- Source global `MAX_RETRIES` (line 39). -/
def MAX_RETRIES : Nat := 3

/-- Source global `LOCAL_URL` (line 37). -/
def LOCAL_URL : String := "http://localhost:3456"

/-- Source global `REMOTE_URL` (line 36). -/
def REMOTE_URL : String := "https://wordnet.dk"

/-- Body of the `for attempt in range(MAX_RETRIES)` loop of
`_make_request`; `fuel` is the number of loop iterations left
(`MAX_RETRIES - attempt`), so running out of fuel is falling off the end
of the loop (line 101). -/
def makeRequestGo (endpoint : String) (resp : Nat → HResp) : Nat → Nat → Except String JValue
  | _, 0 => .error "Max retries exceeded"
  | attempt, fuel + 1 =>
    match resp attempt with
    | .ok payload => .ok payload
    | .status code body =>
      if code = 404 then .error ("Resource not found: " ++ endpoint)
      else if code = 429 then
        if attempt < MAX_RETRIES - 1 then makeRequestGo endpoint resp (attempt + 1) fuel
        else .error "Rate limit exceeded"
      else .error ("HTTP error " ++ toString code ++ ": " ++ body)
    | .exn m =>
      if attempt < MAX_RETRIES - 1 then makeRequestGo endpoint resp (attempt + 1) fuel
      else .error ("Request failed: " ++ m)

/-- Source `DanNetClient._make_request` (lines 68–101), with the network
abstracted by the response oracle. -/
def makeRequest (endpoint : String) (resp : Nat → HResp) : Except String JValue :=
  makeRequestGo endpoint resp 0 MAX_RETRIES

/-- Parameter handling of `_make_request` (lines 73–74):
`request_params = params or {}` aliases the caller's mapping whenever it
is non-empty (a falsy `None` or empty dict is replaced by a fresh dict),
so `request_params["format"] = "json"` writes into the caller's mapping
in exactly that case.  The first component is the result of the request
loop run on the sent parameters, the second is the caller's mapping
after the call. -/
def makeRequestWithParams (endpoint : String) (params : Option (List (String × String)))
    (resp : List (String × String) → Nat → HResp) :
    Except String JValue × Option (List (String × String)) :=
  let requestParams :=
    match params with
    | some l => if l.isEmpty then [("format", "json")] else pyDictSet l "format" "json"
    | none => [("format", "json")]
  let callerAfter : Option (List (String × String)) :=
    match params with
    | some l => if l.isEmpty then some l else some (pyDictSet l "format" "json")
    | none => none
  (makeRequest endpoint (resp requestParams), callerAfter)

/-! ## Search-result normalization (`get_word_synsets`, lines 509–575) -/

/-- Pydantic `SearchResult` model (lines 47–52). -/
structure SearchResult where
  word : String
  synset_id : Option String
  label : Option String
  definition : Option String

/-- The two return modes of `get_word_synsets`: a full entity record
(single redirected result) or a list of summaries. -/
inductive SynsetsResult where
  | entity (record : List (String × JValue))
  | summaries (results : List SearchResult)

/-- Pydantic validation of an `Optional[str]` field: a string or `None`
is accepted, anything else raises a validation error. -/
def toOptStrE : JValue → Except String (Option String)
  | .str s => .ok (some s)
  | .null => .ok none
  | _ => .error "ValidationError"

/-- Single-entity branch of `get_word_synsets` (lines 516–529): if both
`@id` and `@type` are present and `@id` is a `dn:`-prefixed string with
a non-empty remainder, the record is returned with the stripped
identifier added under `synset_id`; a non-string `@id` raises
(`.startswith` on a non-string); otherwise fall through. -/
def singleEntityStep (kvs : List (String × JValue)) :
    Except String (Option (List (String × JValue))) :=
  if hasKey kvs "@id" && hasKey kvs "@type" then
    match dictGet kvs "@id" (.str "") with
    | .str s =>
      if pyStartsWith s "dn:" then
        if pyDrop s 3 = "" then .ok none
        else .ok (some (pyDictSet kvs "synset_id" (.str (pyDrop s 3))))
      else .ok none
    | _ => .error "AttributeError"
  else .ok none

/-- Definition extraction of the `@graph` loop (lines 546–552):
`skos:definition` taken from a language object\x27s `@value` or a plain
string, else the initial `""`. -/
def candidateDefJ (kvs : List (String × JValue)) : JValue :=
  match dictGet kvs "skos:definition" (.obj []) with
  | .obj dkvs =>
    match lookupStr "@value" dkvs with
    | some w => w
    | none => .str ""
  | .str ds => .str ds
  | _ => .str ""

/-- Label extraction of the `@graph` loop (lines 554–560): `rdfs:label`
from a language object\x27s `@value` or a plain string, else the
synthesized fallback built from the query term. -/
def candidateLblJ (query : String) (kvs : List (String × JValue)) : JValue :=
  match dictGet kvs "rdfs:label" (.obj []) with
  | .obj lkvs =>
    match lookupStr "@value" lkvs with
    | some w => w
    | none => .str ("\x7b" ++ query ++ "_§1\x7d")
  | .str ls => .str ls
  | _ => .str ("\x7b" ++ query ++ "_§1\x7d")

/-- `SearchResult` construction (lines 562–567): pydantic validates the
label and the `definition or ""` value as `Optional[str]` fields. -/
def mkSearchResult (query sid : String) (lblJ defJ : JValue) :
    Except String (Option SearchResult) :=
  match toOptStrE lblJ, toOptStrE (pyOr defJ (.str "")) with
  | .ok lbl, .ok dfn => .ok (some ⟨query, some sid, lbl, dfn⟩)
  | .error e, _ => .error e
  | _, .error e => .error e

/-- Per-candidate body of the `@graph` loop (lines 535–567): non-mapping
candidates are skipped; a non-string `@id` raises; a missing, non-`dn:`
or empty-remainder identifier is skipped; otherwise a `SearchResult` is
built from the extracted definition and label. -/
def processCandidate (query : String) (v : JValue) : Except String (Option SearchResult) :=
  match v with
  | .obj kvs =>
    match dictGet kvs "@id" (.str "") with
    | .str s =>
      if pyStartsWith s "dn:" then
        if pyDrop s 3 = "" then .ok none
        else mkSearchResult query (pyDrop s 3) (candidateLblJ query kvs) (candidateDefJ kvs)
      else .ok none
    | _ => .error "AttributeError"
  | _ => .ok none

/-- The `@graph` loop of `get_word_synsets` (lines 534–567). -/
def processGraph (query : String) : List JValue → Except String (List SearchResult)
  | [] => .ok []
  | v :: rest =>
    match processCandidate query v with
    | .error e => .error e
    | .ok none => processGraph query rest
    | .ok (some r) =>
      match processGraph query rest with
      | .error e => .error e
      | .ok l => .ok (r :: l)

/-- Body of `get_word_synsets` inside its `try` (lines 509–572),
normalizing one decoded search response. -/
def getWordSynsetsInner (query : String) (results : JValue) : Except String SynsetsResult :=
  match results with
  | .obj kvs =>
    match singleEntityStep kvs with
    | .error e => .error e
    | .ok (some record) => .ok (.entity record)
    | .ok none =>
      match dictGet kvs "@graph" (.arr []) with
      | .arr gl =>
        if gl.isEmpty then .ok (.summaries [])
        else
          match processGraph query gl with
          | .error e => .error e
          | .ok l => .ok (.summaries l)
      | _ => .ok (.summaries [])
  | _ => .ok (.summaries [])

/-- Source `get_word_synsets` applied to an already-decoded response body:
any exception is re-raised as `RuntimeError(f"Search failed: {e}")`
(lines 574–575). -/
def get_word_synsets (query : String) (results : JValue) : Except String SynsetsResult :=
  match getWordSynsetsInner query results with
  | .ok r => .ok r
  | .error e => .error ("Search failed: " ++ e)

/-- Source `get_word_synsets` including its fetch: the transport error of
the underlying search request is wrapped by the same handler. -/
def getWordSynsetsFull (query : String) (resp : Nat → HResp) : Except String SynsetsResult :=
  match makeRequest "/dannet/search" resp with
  | .error e => .error ("Search failed: " ++ e)
  | .ok body => get_word_synsets query body

/-- Spec-side description of the summaries produced from a `@graph`
collection: one summary per candidate on which the loop body yields a
record. -/
def summariesOf (query : String) (gl : List JValue) : List SearchResult :=
  gl.filterMap fun v =>
    match processCandidate query v with
    | .ok (some r) => some r
    | _ => none

/-- A candidate with a discoverable identifier: a mapping whose `@id` is
a `dn:`-prefixed string with a non-empty remainder. -/
def discoverable : JValue → Bool
  | .obj kvs =>
    match dictGet kvs "@id" (.str "") with
    | .str s => pyStartsWith s "dn:" && !(pyDrop s 3 == "")
    | _ => false
  | _ => false

/-! ## Autocomplete (lines 111–125 and 1031–1038) -/

/-- Source `DanNetClient.autocomplete` (lines 111–125): every exception is
caught and an empty list returned; a response that is not a dict with an
`autocompletions` key also yields an empty list. -/
def clientAutocomplete (resp : Nat → HResp) : JValue :=
  match makeRequest "/dannet/autocomplete" resp with
  | .error _ => .arr []
  | .ok data =>
    match data with
    | .obj kvs =>
      match lookupStr "autocompletions" kvs with
      | some v => v
      | none => .arr []
    | _ => .arr []

/-- Python `", ".join(suggestions[:max_results])` on the value returned by
the client: joining a list of non-strings raises `TypeError`; Python also
accepts a string here (slicing and joining its characters); other values
are not sliceable/joinable. -/
def pyJoinTake (v : JValue) (n : Nat) : Except String String :=
  match v with
  | .arr l =>
    match (l.take n).mapM (fun x => match x with
        | JValue.str s => Except.ok s
        | _ => Except.error "TypeError") with
    | .ok ss => .ok (String.intercalate ", " ss)
    | .error e => .error e
  | .str s => .ok (String.intercalate ", " ((s.data.take n).map fun c => String.mk [c]))
  | _ => .error "TypeError"

/-- Source `autocomplete_danish_word` (lines 1031–1038), with its own
`except` wrapping any exception as
`RuntimeError(f"Autocomplete failed: {e}")`. -/
def autocomplete_danish_word (_pre : String) (maxResults : Nat) (resp : Nat → HResp) :
    Except String String :=
  match pyJoinTake (clientAutocomplete resp) maxResults with
  | .ok s => .ok s
  | .error e => .error ("Autocomplete failed: " ++ e)

/-! ## Synonym aggregation (`get_word_synonyms`, lines 939–1004)

The two-hop graph traversal fetches, for each sibling word entity, its
`rdfs:label` value.  The aggregation below is parameterized by the
collection of gathered raw label values, embedding the per-label loop
body (lines 984–999) and the final join (line 1001). -/

/-- Python `<=` on strings: lexicographic by code point, as `sorted` uses. -/
def charLe : List Char → List Char → Bool
  | [], _ => true
  | _ :: _, [] => false
  | a :: as, b :: bs =>
    if a.toNat < b.toNat then true
    else if b.toNat < a.toNat then false
    else charLe as bs

/-- Python string comparison `a <= b`. -/
def pyLe (a b : String) : Bool :=
  charLe a.data b.data

/-- Python `sorted` on a list of strings. -/
def pySorted (l : List String) : List String :=
  List.insertionSort (fun a b => pyLe a b = true) l

/-- Loop body lines 985–995: extract the lemma string from a label value
(`@value` of a mapping, or a plain string, else `""`), then strip
surrounding quote characters if truthy.  A truthy non-string lemma would
raise on `.strip`. -/
def lemmaOfLabel (v : JValue) : Except String String :=
  let lemJ : JValue :=
    match v with
    | .obj kvs =>
      match lookupStr "@value" kvs with
      | some w => w
      | none => .str ""
    | .str s => .str s
    | _ => .str ""
  if pyTruthy lemJ then
    match lemJ with
    | .str s => .ok (pyStripChar s '"')
    | _ => .error "AttributeError"
  else .ok ""

/-- The label loop (lines 984–999) with the Python `set` modelled as a
duplicate-free list in insertion order (the set's internal order is
unobservable: the result is sorted before use). -/
def synonymsLoop (word : String) : List JValue → List String → Except String (List String)
  | [], acc => .ok acc
  | v :: rest, acc =>
    match lemmaOfLabel v with
    | .error e => .error e
    | .ok lem =>
      synonymsLoop word rest
        (if !(lem == "") && !(pyLower lem == pyLower word) then
          (if lem ∈ acc then acc else acc ++ [lem])
         else acc)

/-- Source `get_word_synonyms` aggregation core (lines 984–1004) over the
gathered label values: accumulate the synonym set, then
`", ".join(sorted(list(synonyms)))`; exceptions are wrapped as
`RuntimeError(f"Failed to find synonyms: {e}")`. -/
def getWordSynonymsCore (word : String) (labels : List JValue) : Except String String :=
  match synonymsLoop word labels [] with
  | .error e => .error ("Failed to find synonyms: " ++ e)
  | .ok syns => .ok (String.intercalate ", " (pySorted syns))

/-- Spec-side description of the gathered labels that survive filtering:
each resolved, quote-stripped label that is non-empty and differs
case-insensitively from the input word. -/
def validLemmas (word : String) (labels : List JValue) : List String :=
  (labels.filterMap fun v => (lemmaOfLabel v).toOption).filter
    fun l => !(l == "") && !(pyLower l == pyLower word)

/-- Python set insertion of a stream of values into an accumulator list. -/
def insertFold : List String → List String → List String
  | acc, [] => acc
  | acc, x :: l => insertFold (if x ∈ acc then acc else acc ++ [x]) l

/-! ## Server switching (`switch_dannet_server`, lines 1041–1121) -/

/-- Return record of `switch_dannet_server`. -/
structure SwitchResult where
  status : String
  message : String
  previous_url : String
  current_url : String

/-- Source `switch_dannet_server` (lines 1073–1114).  The global client is
modelled by its base URL (`none` when not yet initialized);
`DanNetClient.__init__` strips trailing slashes from the stored base URL
(line 65); the best-effort connectivity probe only logs and never changes
the outcome, so it has no observable effect here. -/
def switch_dannet_server (server : String) (clientUrl : Option String) :
    Option String × SwitchResult :=
  let previousUrl := match clientUrl with | some u => u | none => "None"
  if pyLower server = "local" then
    (some (pyRstrip LOCAL_URL '/'),
     ⟨"success", "Successfully switched DanNet server from " ++ previousUrl ++ " to " ++ LOCAL_URL,
      previousUrl, LOCAL_URL⟩)
  else if pyLower server = "remote" then
    (some (pyRstrip REMOTE_URL '/'),
     ⟨"success", "Successfully switched DanNet server from " ++ previousUrl ++ " to " ++ REMOTE_URL,
      previousUrl, REMOTE_URL⟩)
  else if pyStartsWith server "http://" || pyStartsWith server "https://" then
    (some (pyRstrip server '/'),
     ⟨"success", "Successfully switched DanNet server from " ++ previousUrl ++ " to " ++ server,
      previousUrl, server⟩)
  else
    (clientUrl,
     ⟨"error",
      "Invalid server specification: \x27" ++ server ++ "\x27. Use \x27local\x27, \x27remote\x27, or a valid URL.",
      previousUrl, previousUrl⟩)

/-- Response oracle for the retry scenario of the rate-limit claim:
three straight 429 responses, then success. -/
def rateLimitedThrice : Nat → HResp := fun n =>
  if n < 3 then .status 429 "too many requests" else .ok (.str "payload")

/-- Shape test used by hypotheses about non-mapping values. -/
def JValue.isObj : JValue → Bool
  | .obj _ => true
  | _ => false

/-- Whether the loop body emits a summary for a candidate. -/
def producedSummary (query : String) (v : JValue) : Bool :=
  match processCandidate query v with
  | .ok (some _) => true
  | _ => false

/-- A value that pydantic accepts for an `Optional[str]` field: a string
or `None` (pydantic v2 does not coerce other types). -/
def validOptStr : JValue → Bool
  | .str _ => true
  | .null => true
  | _ => false

/-- Structural well-formedness of one `@graph` candidate: the shapes on
which the loop body cannot raise.  A non-mapping is skipped; a mapping
must have a string (or absent) `@id`, and, when that identifier is
discoverable, its extracted label value and its `definition or ""` value
must be pydantic-acceptable (a truthy non-string raises a validation
error).  This describes the raise-free candidates purely by shape,
mirroring the branch structure of `processCandidate`. -/
def candidateWf (query : String) : JValue → Bool
  | .obj kvs =>
    match dictGet kvs "@id" (.str "") with
    | .str s =>
      if pyStartsWith s "dn:" then
        if pyDrop s 3 = "" then true
        else validOptStr (candidateLblJ query kvs)
          && validOptStr (pyOr (candidateDefJ kvs) (.str ""))
      else true
    | _ => false
  | _ => true

/-! ## Helper lemmas -/

theorem pyStartsWith_dn_append (s : String) : pyStartsWith ("dn:" ++ s) "dn:" = true := by
  cases s
  simp [pyStartsWith, charsLeadWith]

theorem pyDrop_dn_append (s : String) : pyDrop ("dn:" ++ s) 3 = s := by
  cases s
  rfl

theorem lookupStr_append_none {β : Type} (k : String) (v : β) (kvs : List (String × β))
    (h : lookupStr k kvs = none) : lookupStr k (kvs ++ [(k, v)]) = some v := by
  induction kvs with
  | nil => simp [lookupStr]
  | cons p rest ih =>
    obtain ⟨k', w⟩ := p
    by_cases hk : k' = k
    · simp [lookupStr, hk] at h
    · simp only [List.cons_append]
      simp [lookupStr, hk] at h ⊢
      exact ih h

theorem pyDictSet_append {β : Type} (kvs : List (String × β)) (k : String) (v : β)
    (h : lookupStr k kvs = none) : pyDictSet kvs k v = kvs ++ [(k, v)] := by
  simp [pyDictSet, hasKey, h]

/-! ## Claim theorems -/

/-- Claim C4 (code bug): identifier stripping is required to be idempotent,
but `parse_resource_id` applied to a full URI keeps everything after the
last colon, so a second application strips further: the function
contradicts its own doc comment, which says it extracts the resource ID
from full URIs. -/
theorem parse_resource_id_not_idempotent :
    parse_resource_id "http://example.com/synset-3" = "//example.com/synset-3"
    ∧ parse_resource_id (parse_resource_id "http://example.com/synset-3") = "synset-3"
    ∧ parse_resource_id (parse_resource_id "http://example.com/synset-3")
        ≠ parse_resource_id "http://example.com/synset-3" :=
  ⟨by decide, by decide, by decide⟩

/-- Claim C5 (code bug): on a non-empty list of language-tagged literal
objects, `get_language_value` returns the Python stringification of the
whole list, not a value taken from an element: the list-handling branch
in the source is nested under the dict `isinstance` check and is
unreachable. -/
theorem get_language_value_list_stringified :
    get_language_value (.arr [.obj [("@value", .str "hund"), ("@language", .str "da")]]) "da"
      = .str "[\x7b\x27@value\x27: \x27hund\x27, \x27@language\x27: \x27da\x27\x7d]"
    ∧ get_language_value (.arr [.obj [("@value", .str "hund"), ("@language", .str "da")]]) "da"
      ≠ .str "hund" := by
  refine ⟨rfl, ?_⟩
  intro h
  rw [show get_language_value (.arr [.obj [("@value", .str "hund"), ("@language", .str "da")]]) "da"
      = .str "[\x7b\x27@value\x27: \x27hund\x27, \x27@language\x27: \x27da\x27\x7d]" from rfl] at h
  injection h with h'
  exact absurd h' (by decide)

/-- Claim C3 (counterexample): the extractors do not pass malformed input
through unchanged — a non-mapping sentiment value yields `None`, and a
non-list, non-mapping ontological-type value yields an empty list. -/
theorem extractor_passthrough_fails :
    extract_sentiment_data [("dns:sentiment", .arr [.int 1])] = .null
    ∧ JValue.null ≠ JValue.arr [.int 1]
    ∧ extract_ontological_types [("dns:ontologicalType", .str "dnc:Animal")] = .arr []
    ∧ JValue.arr [] ≠ JValue.str "dnc:Animal" :=
  ⟨rfl, fun h => JValue.noConfusion h, rfl, fun h => JValue.noConfusion h⟩

/-- Claim C3 (amended): neither extractor ever raises (both are total
functions of the record); on shapes other than the expected encoding,
`extract_ontological_types` passes the property value through unchanged
only when it is already a list, and `extract_sentiment_data` returns
`None` rather than the original value whenever the property value is not
a mapping. -/
theorem extractors_on_malformed (kvs : List (String × JValue)) (l : List JValue) (v : JValue)
    (h1 : lookupStr "dns:ontologicalType" kvs = some (.arr l))
    (h2 : lookupStr "dns:sentiment" kvs = some v)
    (h3 : v.isObj = false) :
    extract_ontological_types kvs = .arr l ∧ extract_sentiment_data kvs = .null := by
  constructor
  · simp [extract_ontological_types, dictGet, h1]
  · unfold extract_sentiment_data
    rw [h2]
    cases v <;> simp_all [JValue.isObj]

/-- Witness for the amended C3 theorem at a concrete malformed record. -/
theorem extractors_on_malformed_witness :
    extract_ontological_types
        [("dns:ontologicalType", .arr [.str "dnc:Animal"]), ("dns:sentiment", .arr [.int 1])]
      = .arr [.str "dnc:Animal"]
    ∧ extract_sentiment_data
        [("dns:ontologicalType", .arr [.str "dnc:Animal"]), ("dns:sentiment", .arr [.int 1])]
      = .null :=
  extractors_on_malformed _ _ _ rfl rfl rfl

/-- Claim C6 (counterexample): with `MAX_RETRIES = 3`, three consecutive
429 responses exhaust the whole attempt budget, so the transport raises
the rate-limit error and never sees the following 200. -/
theorem make_request_three_429_then_ok :
    makeRequest "/dannet/search" rateLimitedThrice = .error "Rate limit exceeded"
    ∧ makeRequest "/dannet/search" rateLimitedThrice ≠ .ok (.str "payload") := by
  refine ⟨rfl, ?_⟩
  intro h
  rw [show makeRequest "/dannet/search" rateLimitedThrice = .error "Rate limit exceeded" from rfl] at h
  exact Except.noConfusion h

/-- Claim C6 (amended): the fixed budget of `MAX_RETRIES = 3` counts total
attempts including the final success, so up to two consecutive 429
responses are tolerated: after 429, 429, 200 the transport returns the
decoded 200 payload. -/
theorem make_request_retry_budget (endpoint : String) (resp : Nat → HResp) (b0 b1 : String)
    (p : JValue)
    (h0 : resp 0 = .status 429 b0) (h1 : resp 1 = .status 429 b1) (h2 : resp 2 = .ok p) :
    makeRequest endpoint resp = .ok p := by
  simp [makeRequest, makeRequestGo, MAX_RETRIES, h0, h1, h2]

/-- Witness for the amended C6 theorem: two 429s then success. -/
theorem make_request_retry_budget_witness :
    makeRequest "/dannet/search"
        (fun n => if n < 2 then .status 429 "busy" else .ok (.str "payload"))
      = .ok (.str "payload") :=
  make_request_retry_budget "/dannet/search" _ "busy" "busy" (.str "payload") rfl rfl rfl

/-- Claim C7 (counterexample): a transport failure during autocomplete is
not surfaced: `DanNetClient.autocomplete` catches every exception and
returns an empty list, so `autocomplete_danish_word` returns the empty
joined string instead of an error. -/
theorem autocomplete_error_swallowed :
    makeRequest "/dannet/autocomplete" (fun _ => .exn "connection refused")
      = .error "Request failed: connection refused"
    ∧ autocomplete_danish_word "hyg" 10 (fun _ => .exn "connection refused") = .ok "" :=
  ⟨rfl, rfl⟩

/-- Claim C7 (amended): a transport-level error in the search fetch
propagates as a wrapped `Search failed:` message naming the operation,
while `autocomplete_danish_word` silently converts any transport error
into an empty result string. -/
theorem error_propagation_split (q pre2 : String) (m : Nat) (resp resp2 : Nat → HResp)
    (e e2 : String)
    (h1 : makeRequest "/dannet/search" resp = .error e)
    (h2 : makeRequest "/dannet/autocomplete" resp2 = .error e2) :
    getWordSynsetsFull q resp = .error ("Search failed: " ++ e)
    ∧ autocomplete_danish_word pre2 m resp2 = .ok "" := by
  constructor
  · simp [getWordSynsetsFull, h1]
  · simp [autocomplete_danish_word, clientAutocomplete, h2, pyJoinTake]
    rfl

/-- Witness for the amended C7 theorem at a failing oracle. -/
theorem error_propagation_split_witness :
    getWordSynsetsFull "hund" (fun _ => .exn "boom")
      = .error ("Search failed: " ++ "Request failed: boom")
    ∧ autocomplete_danish_word "hyg" 10 (fun _ => .exn "boom") = .ok "" :=
  error_propagation_split "hund" "hyg" 10 _ _ "Request failed: boom" "Request failed: boom" rfl rfl

/-- Claim C8 (counterexample): `request_params = params or {}` aliases a
non-empty caller mapping, so the transport writes the `format` key into
the caller's dictionary. -/
theorem make_request_mutates_caller_params :
    (makeRequestWithParams "/dannet/search" (some [("lemma", "hund")]) (fun _ _ => .exn "x")).2
      = some [("lemma", "hund"), ("format", "json")]
    ∧ (makeRequestWithParams "/dannet/search" (some [("lemma", "hund")]) (fun _ _ => .exn "x")).2
      ≠ some [("lemma", "hund")] := by
  refine ⟨rfl, ?_⟩
  decide

/-- Claim C8 (amended): for a non-empty caller mapping without a `format`
key the call appends the binding `("format", "json")` to the caller's
mapping (dictionary aliasing); an empty or absent mapping is left
untouched, and no other state beyond the base URL is read or written. -/
theorem make_request_params_effect (endpoint : String)
    (resp : List (String × String) → Nat → HResp) (l : List (String × String))
    (hne : l ≠ []) (hfk : lookupStr "format" l = none) :
    (makeRequestWithParams endpoint (some l) resp).2 = some (l ++ [("format", "json")])
    ∧ (makeRequestWithParams endpoint (some []) resp).2 = some []
    ∧ (makeRequestWithParams endpoint none resp).2 = none := by
  refine ⟨?_, rfl, rfl⟩
  match l, hne with
  | (k, v) :: rest, _ =>
    simp [makeRequestWithParams, pyDictSet_append _ _ _ hfk]

/-- Witness for the amended C8 theorem: a search-parameter mapping. -/
theorem make_request_params_effect_witness :
    (makeRequestWithParams "/dannet/search" (some [("lemma", "hund")])
        (fun _ _ => HResp.exn "x")).2
      = some ([("lemma", "hund")] ++ [("format", "json")])
    ∧ (makeRequestWithParams "/dannet/search" (some []) (fun _ _ => HResp.exn "x")).2 = some []
    ∧ (makeRequestWithParams "/dannet/search" none (fun _ _ => HResp.exn "x")).2 = none :=
  make_request_params_effect "/dannet/search" (fun _ _ => HResp.exn "x") [("lemma", "hund")]
    (by decide) rfl

/-- Claim C10 (confirmed): on an argument that is neither `local` nor
`remote` (case-insensitively) nor an `http(s)://` URL,
`switch_dannet_server` returns an error record whose current URL equals
the previous URL and leaves the global client untouched — no new client
is constructed. -/
theorem switch_server_invalid_input (server : String) (st : Option String)
    (h1 : pyLower server ≠ "local") (h2 : pyLower server ≠ "remote")
    (h3 : pyStartsWith server "http://" = false)
    (h4 : pyStartsWith server "https://" = false) :
    (switch_dannet_server server st).1 = st
    ∧ (switch_dannet_server server st).2.status = "error"
    ∧ (switch_dannet_server server st).2.current_url
        = (switch_dannet_server server st).2.previous_url := by
  simp [switch_dannet_server, h1, h2, h3, h4]

/-- Witness for the C10 theorem at a concrete invalid argument. -/
theorem switch_server_invalid_input_witness :
    (switch_dannet_server "ftp://example.com" (some "https://wordnet.dk")).1
      = some "https://wordnet.dk"
    ∧ (switch_dannet_server "ftp://example.com" (some "https://wordnet.dk")).2.status = "error"
    ∧ (switch_dannet_server "ftp://example.com" (some "https://wordnet.dk")).2.current_url
        = (switch_dannet_server "ftp://example.com" (some "https://wordnet.dk")).2.previous_url :=
  switch_server_invalid_input "ftp://example.com" (some "https://wordnet.dk")
    (by decide) (by decide) (by decide) (by decide)

/-- Claim C1 (confirmed): a single-entity response carrying an identifier
`@id = dn:s` (with non-empty `s`), a `@type`, and properties `P` without
a `synset_id` key normalizes to the record holding every binding of `P`
unchanged followed by the convenience binding `synset_id = s`, the
namespace-prefix-stripped identifier. -/
theorem get_word_synsets_single_entity (query s : String) (kvs : List (String × JValue))
    (hid : lookupStr "@id" kvs = some (.str ("dn:" ++ s)))
    (hty : hasKey kvs "@type" = true)
    (hs : s ≠ "")
    (hfresh : lookupStr "synset_id" kvs = none) :
    get_word_synsets query (.obj kvs) = .ok (.entity (kvs ++ [("synset_id", .str s)]))
    ∧ lookupStr "synset_id" (kvs ++ [("synset_id", JValue.str s)]) = some (.str s) := by
  have hkey : hasKey kvs "@id" = true := by simp [hasKey, hid]
  have hget : dictGet kvs "@id" (JValue.str "") = .str ("dn:" ++ s) := by simp [dictGet, hid]
  have hstep : singleEntityStep kvs = .ok (some (kvs ++ [("synset_id", .str s)])) := by
    unfold singleEntityStep
    rw [hkey, hty, hget]
    simp [pyStartsWith_dn_append, pyDrop_dn_append, hs, pyDictSet_append _ _ _ hfresh]
  refine ⟨?_, lookupStr_append_none _ _ _ hfresh⟩
  simp [get_word_synsets, getWordSynsetsInner, hstep]

/-- Witness for the C1 theorem at a concrete redirected response. -/
theorem get_word_synsets_single_entity_witness :
    get_word_synsets "svinkeærinde"
        (.obj [("@id", .str "dn:synset-11677"), ("@type", .str "ontolex:LexicalConcept"),
               ("wn:hypernym", .str "dn:synset-11677")])
      = .ok (.entity
          ([("@id", .str "dn:synset-11677"), ("@type", .str "ontolex:LexicalConcept"),
            ("wn:hypernym", .str "dn:synset-11677")] ++ [("synset_id", .str "synset-11677")]))
    ∧ lookupStr "synset_id"
        ([("@id", .str "dn:synset-11677"), ("@type", .str "ontolex:LexicalConcept"),
          ("wn:hypernym", .str "dn:synset-11677")] ++ [("synset_id", JValue.str "synset-11677")])
      = some (.str "synset-11677") :=
  get_word_synsets_single_entity "svinkeærinde" "synset-11677"
    [("@id", .str "dn:synset-11677"), ("@type", .str "ontolex:LexicalConcept"),
     ("wn:hypernym", .str "dn:synset-11677")]
    rfl rfl (by decide) rfl

/-! ## Lemmas for the multi-result claim -/

theorem toOptStrE_pyOr_isSome (j : JValue) (o : Option String)
    (h : toOptStrE (pyOr j (.str "")) = .ok o) : o.isSome = true := by
  cases j <;> unfold pyOr at h <;> split at h <;> simp_all [toOptStrE, pyTruthy] <;>
    (subst h; rfl)

theorem mkSearchResult_fields (query sid : String) (lblJ defJ : JValue) (r : SearchResult)
    (h : mkSearchResult query sid lblJ defJ = .ok (some r)) :
    r.word = query ∧ r.synset_id = some sid ∧ r.definition.isSome = true := by
  unfold mkSearchResult at h
  split at h
  case _ lbl dfn hlbl hdfn =>
    have hr : r = ⟨query, some sid, lbl, dfn⟩ := by
      injection h with h1
      injection h1 with h2
      exact h2.symm
    subst hr
    exact ⟨rfl, rfl, toOptStrE_pyOr_isSome _ _ hdfn⟩
  case _ => exact absurd h (by simp)
  case _ => exact absurd h (by simp)

theorem mkSearchResult_ok_some (query sid : String) (lblJ defJ : JValue)
    (h : (mkSearchResult query sid lblJ defJ).isOk = true) :
    ∃ r, mkSearchResult query sid lblJ defJ = .ok (some r) := by
  unfold mkSearchResult at h ⊢
  split at h
  case _ lbl dfn hlbl hdfn => exact ⟨_, rfl⟩
  case _ => simp [Except.isOk, Except.toBool] at h
  case _ => simp [Except.isOk, Except.toBool] at h

theorem processCandidate_some_fields (query : String) (v : JValue) (r : SearchResult)
    (h : processCandidate query v = .ok (some r)) :
    r.word = query ∧ r.synset_id.isSome = true ∧ r.definition.isSome = true := by
  cases v <;> simp only [processCandidate] at h <;> try exact absurd h (by simp)
  case obj kvs =>
    rcases hE : dictGet kvs "@id" (JValue.str "") with s | n | b | _ | l | f <;>
      simp only [hE] at h <;> try exact absurd h (by simp)
    by_cases hp : pyStartsWith s "dn:" = true
    · by_cases hd : pyDrop s 3 = ""
      · simp [hp, hd] at h
      · simp only [hp, hd, if_true, if_false] at h
        obtain ⟨h1, h2, h3⟩ := mkSearchResult_fields _ _ _ _ _ h
        exact ⟨h1, by rw [h2]; rfl, h3⟩
    · simp [hp] at h

theorem processCandidate_produced_iff (query : String) (v : JValue)
    (hv : (processCandidate query v).isOk = true) :
    producedSummary query v = discoverable v := by
  cases v
  case obj kvs =>
    unfold processCandidate at hv
    unfold producedSummary processCandidate discoverable
    rcases hE : dictGet kvs "@id" (JValue.str "") with s | n | b | _ | l | f <;>
      (simp only [hE] at hv ⊢
       try simp [Except.isOk, Except.toBool] at hv)
    by_cases hp : pyStartsWith s "dn:" = true
    · by_cases hd : pyDrop s 3 = ""
      · simp [hp, hd]
      · simp only [hp, hd, if_true, if_false] at hv ⊢
        obtain ⟨r, hr⟩ := mkSearchResult_ok_some _ _ _ _ hv
        rw [hr]
        have hbe : (pyDrop s 3 == "") = false := by
          cases hq : pyDrop s 3 == ""
          · rfl
          · exact absurd (by simpa using hq) hd
        simp [hp, hbe]
    · simp [hp]
  all_goals rfl

theorem processGraph_ok (query : String) (gl : List JValue)
    (hwf : ∀ v ∈ gl, (processCandidate query v).isOk = true) :
    processGraph query gl = .ok (summariesOf query gl) := by
  induction gl with
  | nil => rfl
  | cons v rest ih =>
    have hv := hwf v (List.mem_cons_self v rest)
    have hrest : ∀ u ∈ rest, (processCandidate query u).isOk = true :=
      fun u hu => hwf u (List.mem_cons_of_mem _ hu)
    have hr := ih hrest
    cases hpc : processCandidate query v with
    | error e => rw [hpc] at hv; simp [Except.isOk, Except.toBool] at hv
    | ok o =>
      cases o with
      | none =>
        simp only [processGraph, hpc, summariesOf, List.filterMap_cons]
        exact hr
      | some r =>
        simp only [processGraph, hpc, hr, summariesOf, List.filterMap_cons]

theorem summariesOf_length (query : String) (gl : List JValue) :
    (summariesOf query gl).length = (gl.filter (producedSummary query)).length := by
  induction gl with
  | nil => rfl
  | cons v rest ih =>
    unfold summariesOf producedSummary at ih ⊢
    cases hpc : processCandidate query v with
    | error e => simp [List.filterMap_cons, List.filter_cons, hpc, ih]
    | ok o => cases o <;> simp [List.filterMap_cons, List.filter_cons, hpc, ih]

theorem validOptStr_toOptStrE (j : JValue) (h : validOptStr j = true) :
    ∃ o, toOptStrE j = .ok o := by
  cases j <;> simp [validOptStr] at h <;> exact ⟨_, rfl⟩

theorem candidateWf_isOk (query : String) (v : JValue) (h : candidateWf query v = true) :
    (processCandidate query v).isOk = true := by
  cases v
  case obj kvs =>
    unfold candidateWf at h
    unfold processCandidate
    rcases hE : dictGet kvs "@id" (JValue.str "") with s | n | b | _ | l | f
    · simp only [hE] at h ⊢
      by_cases hp : pyStartsWith s "dn:" = true
      · by_cases hd : pyDrop s 3 = ""
        · simp [hp, hd, Except.isOk, Except.toBool]
        · simp only [hp, hd, if_true, if_false] at h ⊢
          rw [Bool.and_eq_true] at h
          obtain ⟨hl, hdf⟩ := h
          obtain ⟨ol, hol⟩ := validOptStr_toOptStrE _ hl
          obtain ⟨od, hod⟩ := validOptStr_toOptStrE _ hdf
          unfold mkSearchResult
          rw [hol, hod]
          rfl
      · simp [hp, Except.isOk, Except.toBool]
    · simp [hE] at h
    · simp [hE] at h
    · simp [hE] at h
    · simp [hE] at h
    · simp [hE] at h
  all_goals rfl

/-- Claim C2 (counterexample): malformed candidates are not always
skipped without an exception.  A mapping candidate whose `@id` is a
non-string makes `.startswith` raise, and a candidate with a discoverable
identifier whose `rdfs:label` value is a truthy non-string makes the
pydantic field validation raise; in both cases the whole normalization
fails with the wrapped error instead of returning summaries. -/
theorem get_word_synsets_candidate_raises :
    get_word_synsets "hund" (.obj [("@graph", .arr [.obj [("@id", .int 5)]])])
      = .error ("Search failed: " ++ "AttributeError")
    ∧ get_word_synsets "hund" (.obj [("@graph", .arr
        [.obj [("@id", .str "dn:synset-1"), ("rdfs:label", .obj [("@value", .int 7)])]])])
      = .error ("Search failed: " ++ "ValidationError") := by
  exact ⟨rfl, rfl⟩

/-- Claim C2 (amended): on a `@graph` response in which every candidate
is structurally well formed (`candidateWf`: a non-mapping, or a mapping
whose `@id` is absent or a string, with pydantic-acceptable label and
definition values when the identifier is discoverable), the normalizer
returns exactly one summary per candidate with a discoverable
identifier, each with the queried word, a non-null synset id and a
non-null definition; the well-formed candidates without a discoverable
identifier are skipped without any exception.  Candidates outside this
shape are not skipped: a mapping with a non-string `@id`, or a
discoverable candidate with a truthy non-string label or definition
value, raises a wrapped error (see the counterexample). -/
theorem get_word_synsets_graph (query : String) (kvs : List (String × JValue)) (gl : List JValue)
    (hfall : singleEntityStep kvs = .ok none)
    (hg : dictGet kvs "@graph" (.arr []) = .arr gl)
    (hne : gl ≠ [])
    (hwf : ∀ v ∈ gl, candidateWf query v = true) :
    get_word_synsets query (.obj kvs) = .ok (.summaries (summariesOf query gl))
    ∧ (summariesOf query gl).length = (gl.filter discoverable).length
    ∧ (summariesOf query gl).all
        (fun r => r.word == query && r.synset_id.isSome && r.definition.isSome) = true := by
  have hwf2 : ∀ v ∈ gl, (processCandidate query v).isOk = true :=
    fun v hv => candidateWf_isOk query v (hwf v hv)
  refine ⟨?_, ?_, ?_⟩
  · have hpg := processGraph_ok query gl hwf2
    have hnem : gl.isEmpty = false := by
      cases gl
      · exact absurd rfl hne
      · rfl
    simp [get_word_synsets, getWordSynsetsInner, hfall, hg, hnem, hpg]
  · rw [summariesOf_length]
    have : gl.filter (producedSummary query) = gl.filter discoverable :=
      List.filter_congr fun v hv => processCandidate_produced_iff query v (hwf2 v hv)
    rw [this]
  · rw [List.all_eq_true]
    intro r hr
    obtain ⟨v, hv, hfv⟩ := List.mem_filterMap.mp hr
    have hpc : processCandidate query v = .ok (some r) := by
      revert hfv
      cases hq : processCandidate query v with
      | error e => intro hfv; exact absurd hfv (by simp)
      | ok o =>
        cases o with
        | none => intro hfv; exact absurd hfv (by simp)
        | some r' => intro hfv; injection hfv with h'; rw [h']
    obtain ⟨h1, h2, h3⟩ := processCandidate_some_fields query v r hpc
    simp [h1, h2, h3]

/-- Witness for the amended C2 theorem: four well-formed candidates with
distinct identifiers yield exactly four summaries. -/
theorem get_word_synsets_graph_witness :
    get_word_synsets "hund"
        (.obj [("@graph", .arr
          [.obj [("@id", .str "dn:synset-3047"),
                 ("rdfs:label", .obj [("@value", .str "\x7bhund_1§1\x7d")]),
                 ("skos:definition", .obj [("@value", .str "husdyr")])],
           .obj [("@id", .str "dn:synset-1876"),
                 ("rdfs:label", .str "\x7bhund_2§2\x7d"),
                 ("skos:definition", .str "fyr")],
           .obj [("@id", .str "dn:synset-9999")],
           .obj [("@id", .str "dn:synset-12345"),
                 ("skos:definition", .obj [("@value", .str "spiller")])]])])
      = .ok (.summaries (summariesOf "hund"
          [.obj [("@id", .str "dn:synset-3047"),
                 ("rdfs:label", .obj [("@value", .str "\x7bhund_1§1\x7d")]),
                 ("skos:definition", .obj [("@value", .str "husdyr")])],
           .obj [("@id", .str "dn:synset-1876"),
                 ("rdfs:label", .str "\x7bhund_2§2\x7d"),
                 ("skos:definition", .str "fyr")],
           .obj [("@id", .str "dn:synset-9999")],
           .obj [("@id", .str "dn:synset-12345"),
                 ("skos:definition", .obj [("@value", .str "spiller")])]]))
    ∧ (summariesOf "hund"
          [.obj [("@id", .str "dn:synset-3047"),
                 ("rdfs:label", .obj [("@value", .str "\x7bhund_1§1\x7d")]),
                 ("skos:definition", .obj [("@value", .str "husdyr")])],
           .obj [("@id", .str "dn:synset-1876"),
                 ("rdfs:label", .str "\x7bhund_2§2\x7d"),
                 ("skos:definition", .str "fyr")],
           .obj [("@id", .str "dn:synset-9999")],
           .obj [("@id", .str "dn:synset-12345"),
                 ("skos:definition", .obj [("@value", .str "spiller")])]]).length
        = ([.obj [("@id", JValue.str "dn:synset-3047"),
                 ("rdfs:label", .obj [("@value", JValue.str "\x7bhund_1§1\x7d")]),
                 ("skos:definition", .obj [("@value", JValue.str "husdyr")])],
           .obj [("@id", JValue.str "dn:synset-1876"),
                 ("rdfs:label", JValue.str "\x7bhund_2§2\x7d"),
                 ("skos:definition", JValue.str "fyr")],
           .obj [("@id", JValue.str "dn:synset-9999")],
           .obj [("@id", JValue.str "dn:synset-12345"),
                 ("skos:definition", .obj [("@value", JValue.str "spiller")])]].filter discoverable).length
    ∧ (summariesOf "hund"
          [.obj [("@id", .str "dn:synset-3047"),
                 ("rdfs:label", .obj [("@value", .str "\x7bhund_1§1\x7d")]),
                 ("skos:definition", .obj [("@value", .str "husdyr")])],
           .obj [("@id", .str "dn:synset-1876"),
                 ("rdfs:label", .str "\x7bhund_2§2\x7d"),
                 ("skos:definition", .str "fyr")],
           .obj [("@id", .str "dn:synset-9999")],
           .obj [("@id", .str "dn:synset-12345"),
                 ("skos:definition", .obj [("@value", .str "spiller")])]]).all
        (fun r => r.word == "hund" && r.synset_id.isSome && r.definition.isSome) = true :=
  get_word_synsets_graph "hund" _ _ rfl rfl (by
    intro h
    exact absurd h (by simp)) (by
    intro v hv
    fin_cases hv <;> rfl)

/-! ## Lemmas for the synonym aggregation claim -/

theorem charLe_total : ∀ a b : List Char, charLe a b = true ∨ charLe b a = true := by
  intro a
  induction a with
  | nil => intro b; left; rfl
  | cons x xs ih =>
    intro b
    cases b with
    | nil => right; rfl
    | cons y ys =>
      rcases Nat.lt_trichotomy x.toNat y.toNat with h | h | h
      · left; simp [charLe, h]
      · have hnlt : ¬ x.toNat < y.toNat := by omega
        have hnlt2 : ¬ y.toNat < x.toNat := by omega
        rcases ih ys with hc | hc
        · left; simp [charLe, hnlt, hnlt2, hc]
        · right; simp [charLe, hnlt, hnlt2, hc]
      · right; simp [charLe, h]

theorem charLe_trans : ∀ a b c : List Char,
    charLe a b = true → charLe b c = true → charLe a c = true := by
  intro a
  induction a with
  | nil => intro b c _ _; rfl
  | cons x xs ih =>
    intro b c hab hbc
    cases b with
    | nil => simp [charLe] at hab
    | cons y ys =>
      cases c with
      | nil => simp [charLe] at hbc
      | cons z zs =>
        simp only [charLe] at hab hbc ⊢
        by_cases h1 : x.toNat < y.toNat
        · by_cases h2 : y.toNat < z.toNat
          · have : x.toNat < z.toNat := Nat.lt_trans h1 h2
            simp [this]
          · by_cases h3 : z.toNat < y.toNat
            · rw [if_neg h2, if_pos h3] at hbc
              exact absurd hbc (by simp)
            · have : x.toNat < z.toNat := by omega
              simp [this]
        · by_cases h4 : y.toNat < x.toNat
          · rw [if_neg h1, if_pos h4] at hab
            exact absurd hab (by simp)
          · rw [if_neg h1, if_neg h4] at hab
            by_cases h2 : y.toNat < z.toNat
            · have : x.toNat < z.toNat := by omega
              simp [this]
            · by_cases h3 : z.toNat < y.toNat
              · rw [if_neg h2, if_pos h3] at hbc
                exact absurd hbc (by simp)
              · rw [if_neg h2, if_neg h3] at hbc
                have hnlt : ¬ x.toNat < z.toNat := by omega
                have hnlt2 : ¬ z.toNat < x.toNat := by omega
                rw [if_neg hnlt, if_neg hnlt2]
                exact ih ys zs hab hbc

theorem charLe_antisymm : ∀ a b : List Char,
    charLe a b = true → charLe b a = true → a = b := by
  intro a
  induction a with
  | nil =>
    intro b _ hba
    cases b with
    | nil => rfl
    | cons y ys => simp [charLe] at hba
  | cons x xs ih =>
    intro b hab hba
    cases b with
    | nil => simp [charLe] at hab
    | cons y ys =>
      simp only [charLe] at hab hba
      by_cases h1 : x.toNat < y.toNat
      · have h2 : ¬ y.toNat < x.toNat := by omega
        rw [if_neg h2, if_pos h1] at hba
        exact absurd hba (by simp)
      · by_cases h2 : y.toNat < x.toNat
        · rw [if_neg h1, if_pos h2] at hab
          exact absurd hab (by simp)
        · rw [if_neg h1, if_neg h2] at hab
          rw [if_neg h2, if_neg h1] at hba
          have hxy : x.toNat = y.toNat := by omega
          have hx : x = y := Char.ext (UInt32.ext hxy)
          rw [hx, ih ys hab hba]

theorem pyLe_total (a b : String) : pyLe a b = true ∨ pyLe b a = true :=
  charLe_total a.data b.data

theorem pyLe_trans (a b c : String) (h1 : pyLe a b = true) (h2 : pyLe b c = true) :
    pyLe a c = true :=
  charLe_trans a.data b.data c.data h1 h2

theorem pyLe_antisymm (a b : String) (h1 : pyLe a b = true) (h2 : pyLe b a = true) : a = b := by
  have h := charLe_antisymm a.data b.data h1 h2
  cases a
  cases b
  exact congrArg String.mk h

theorem insertFold_mem (x : String) :
    ∀ (l acc : List String), x ∈ insertFold acc l ↔ x ∈ acc ∨ x ∈ l := by
  intro l
  induction l with
  | nil => intro acc; simp [insertFold]
  | cons a l ih =>
    intro acc
    rw [insertFold, ih]
    by_cases ha : a ∈ acc
    · rw [if_pos ha]
      simp only [List.mem_cons]
      constructor
      · rintro (h | h)
        · exact Or.inl h
        · exact Or.inr (Or.inr h)
      · rintro (h | h | h)
        · exact Or.inl h
        · exact Or.inl (h ▸ ha)
        · exact Or.inr h
    · rw [if_neg ha]
      simp only [List.mem_append, List.mem_cons, List.not_mem_nil, or_false]
      tauto

theorem insertFold_nodup :
    ∀ (l acc : List String), acc.Nodup → (insertFold acc l).Nodup := by
  intro l
  induction l with
  | nil => intro acc h; exact h
  | cons a l ih =>
    intro acc h
    rw [insertFold]
    by_cases ha : a ∈ acc
    · rw [if_pos ha]; exact ih acc h
    · rw [if_neg ha]
      apply ih
      rw [List.nodup_append]
      exact ⟨h, List.nodup_singleton a, by
        intro x hx hxa
        rw [List.mem_singleton] at hxa
        exact ha (hxa ▸ hx)⟩

theorem synonymsLoop_ok (word : String) :
    ∀ (labels : List JValue) (acc : List String),
      (∀ v ∈ labels, (lemmaOfLabel v).isOk = true) →
      synonymsLoop word labels acc = .ok (insertFold acc (validLemmas word labels)) := by
  intro labels
  induction labels with
  | nil => intro acc _; rfl
  | cons v rest ih =>
    intro acc hwf
    have hv := hwf v (List.mem_cons_self v rest)
    have hrest : ∀ u ∈ rest, (lemmaOfLabel u).isOk = true :=
      fun u hu => hwf u (List.mem_cons_of_mem _ hu)
    cases hlv : lemmaOfLabel v with
    | error e => rw [hlv] at hv; simp [Except.isOk, Except.toBool] at hv
    | ok lem =>
      have hvalid : validLemmas word (v :: rest)
          = if !(lem == "") && !(pyLower lem == pyLower word)
            then lem :: validLemmas word rest else validLemmas word rest := by
        unfold validLemmas
        rw [List.filterMap_cons, hlv]
        simp only [Except.toOption]
        rw [List.filter_cons]
      rw [hvalid]
      simp only [synonymsLoop, hlv]
      by_cases hcond : (!(lem == "") && !(pyLower lem == pyLower word)) = true
      · rw [if_pos hcond, if_pos hcond, insertFold]
        exact ih _ hrest
      · rw [if_neg hcond, if_neg hcond]
        exact ih _ hrest

/-- Claim C9 (confirmed): the aggregation over any gathered collection of
well-formed sibling label values returns the comma-plus-space join of
the Python-sorted, deduplicated set of quote-stripped labels, excluding
labels equal to the input word case-insensitively. -/
theorem get_word_synonyms_sorted_dedup (word : String) (labels : List JValue)
    (hwf : ∀ v ∈ labels, (lemmaOfLabel v).isOk = true) :
    getWordSynonymsCore word labels
      = .ok (String.intercalate ", " (pySorted (validLemmas word labels).dedup)) := by
  have hloop := synonymsLoop_ok word labels [] hwf
  unfold getWordSynonymsCore
  rw [hloop]
  have hA : (insertFold [] (validLemmas word labels)).Nodup :=
    insertFold_nodup _ _ List.nodup_nil
  have hB : (validLemmas word labels).dedup.Nodup := List.nodup_dedup _
  have hmem : ∀ x, x ∈ insertFold [] (validLemmas word labels)
      ↔ x ∈ (validLemmas word labels).dedup := by
    intro x
    rw [insertFold_mem, List.mem_dedup]
    simp
  have hperm : List.Perm (insertFold [] (validLemmas word labels))
      (validLemmas word labels).dedup :=
    (List.perm_ext_iff_of_nodup hA hB).mpr hmem
  haveI hTot : IsTotal String (fun a b => pyLe a b = true) := ⟨pyLe_total⟩
  haveI hTrans : IsTrans String (fun a b => pyLe a b = true) := ⟨pyLe_trans⟩
  haveI hAnti : IsAntisymm String (fun a b => pyLe a b = true) := ⟨pyLe_antisymm⟩
  have hsorted : pySorted (insertFold [] (validLemmas word labels))
      = pySorted (validLemmas word labels).dedup := by
    unfold pySorted
    exact List.eq_of_perm_of_sorted
      ((List.perm_insertionSort _ _).trans (hperm.trans (List.perm_insertionSort _ _).symm))
      (List.sorted_insertionSort _ _) (List.sorted_insertionSort _ _)
  show Except.ok (String.intercalate ", " (pySorted (insertFold [] (validLemmas word labels))))
      = Except.ok (String.intercalate ", " (pySorted (validLemmas word labels).dedup))
  rw [hsorted]

/-- Witness for the C9 theorem at a concrete label collection with a
quoted label, a language object, a duplicate, and a case variant of the
input word. -/
theorem get_word_synonyms_sorted_dedup_witness :
    getWordSynonymsCore "hund"
        [.str "\"køter\"", .obj [("@value", .str "vovse")], .str "vovse", .str "Hund"]
      = .ok (String.intercalate ", "
          (pySorted (validLemmas "hund"
            [.str "\"køter\"", .obj [("@value", .str "vovse")], .str "vovse", .str "Hund"]).dedup))
    ∧ getWordSynonymsCore "hund"
        [.str "\"køter\"", .obj [("@value", .str "vovse")], .str "vovse", .str "Hund"]
      = .ok "køter, vovse" :=
  ⟨get_word_synonyms_sorted_dedup "hund"
      [.str "\"køter\"", .obj [("@value", .str "vovse")], .str "vovse", .str "Hund"]
      (by intro v hv; fin_cases hv <;> rfl),
   by rfl⟩
